import Mathlib

/-!
# Verification of the bottom-server harvesting/event pipeline

Shallow embedding of the concurrent harvesting/event pipeline and of the
sortable connections table of the `bottom-server` repository, together with
proofs about the embedded definitions.

Conventions:
* Rust machine integers are embedded as `Nat` (with explicit range checks
  where overflow matters, e.g. `u32` parsing).
* Fallible lookups return `Option`.
* Each thread's loop body is embedded as a pure step function over an
  explicit environment record that carries the results of the impure calls
  (lock acquisition, channel polls, send results, observed clock values).
-/

namespace BottomServer

/-! ## Comparators and the stable sort used by `slice::sort_by`

Rust's `slice::sort_by` is documented to be a stable sort driven by a
comparator returning `Ordering`.  We embed it as a stable insertion sort:
an element is inserted *before* the first element it does not compare
`gt` against, which preserves the relative order of elements that compare
`eq`. -/

/-- Comparator for Rust `u32`/`usize` values (`Ord::cmp` on unsigned ints). -/
def natCmp (a b : Nat) : Ordering :=
  if a < b then Ordering.lt else if a = b then Ordering.eq else Ordering.gt

/-- Comparator for Rust `char` (code-point order). -/
def charCmp (a b : Char) : Ordering :=
  natCmp a.toNat b.toNat

/-- Lexicographic comparator on char lists; Rust `Ord` on `String` is
byte-lexicographic, which for valid UTF-8 coincides with code-point
lexicographic order. -/
def lexCmp : List Char → List Char → Ordering
  | [], [] => Ordering.eq
  | [], _ :: _ => Ordering.lt
  | _ :: _, [] => Ordering.gt
  | a :: as, b :: bs =>
    match charCmp a b with
    | Ordering.eq => lexCmp as bs
    | o => o

/-- Comparator for Rust `String` values. -/
def strCmp (a b : String) : Ordering :=
  lexCmp a.toList b.toList

/-- Stable insertion of `a` into `l`: `a` is placed before the first element
`b` with `cmp a b ≠ .gt`, so an element inserted later never jumps ahead of
an earlier equal one. -/
def insertSorted (cmp : α → α → Ordering) (a : α) : List α → List α
  | [] => [a]
  | b :: l =>
    match cmp a b with
    | Ordering.gt => b :: insertSorted cmp a l
    | _ => a :: b :: l

/-- Model of Rust `slice::sort_by` (a stable comparator sort). -/
def sortByStable (cmp : α → α → Ordering) : List α → List α
  | [] => []
  | a :: l => insertSorted cmp a (sortByStable cmp l)

/-- Modelled from the spec: `sort_partial_fn` lives in
`src/utils/gen_util.rs`, which is not among the provided sources.  Per the
spec's comparator contract (§4.7: each column defines its own ordering
function; descending reverses it), it yields the natural comparator when
ascending and the flipped comparator when descending. -/
def sort_partial_fn (descending : Bool) (cmp : β → β → Ordering) (a b : β) : Ordering :=
  if descending then cmp b a else cmp a b

/-! ## Rust `u32` parsing

`"1234".parse::<u32>()` accepts an optional leading `'+'` followed by at
least one decimal digit, and fails on any other character, on the empty
string, and on overflow past `u32::MAX`. -/

/-- Decimal digit value of a char, if it is one. -/
def digitVal (c : Char) : Option Nat :=
  if '0' ≤ c ∧ c ≤ '9' then some (c.toNat - '0'.toNat) else none

/-- Accumulate decimal digits; fails on the first non-digit. -/
def parseDigits (acc : Nat) : List Char → Option Nat
  | [] => some acc
  | c :: cs =>
    match digitVal c with
    | some d => parseDigits (acc * 10 + d) cs
    | none => none

/-- Model of `str::parse::<u32>()`. -/
def parse_u32 (s : List Char) : Option Nat :=
  let body :=
    match s with
    | '+' :: rest => rest
    | _ => s
  match body with
  | [] => none
  | _ =>
    match parseDigits 0 body with
    | some n => if n < 2 ^ 32 then some n else none
    | none => none

/-! ## The connections table (`src/widgets/connections_table.rs`) -/

/-- One row of the connections table. -/
structure ConnectionsWidgetData where
  name : String
  local_address : String
  remote_address : String
  status : String
deriving DecidableEq, Repr

/-- The four columns of the connections table. -/
inductive ConnectionsWidgetColumn
  | Name
  | LocalAddress
  | RemoteAddress
  | Status
deriving DecidableEq, Repr

/-- Sort key of the `Name` column:
`name.split('/').next().unwrap().parse::<u32>().unwrap_or(0)` — the integer
parsed from the substring before the first `'/'`, or `0` when unparseable. -/
def nameSortKey (name : String) : Nat :=
  (parse_u32 (name.toList.takeWhile (fun c => c ≠ '/'))).getD 0

/-- `SortsRow::sort_data` for `ConnectionsWidgetColumn`
(`connections_table.rs:82-116`): each column sorts the rows in place with
`slice::sort_by` and `sort_partial_fn(descending)` over its own key. -/
def ConnectionsWidgetColumn.sort_data (c : ConnectionsWidgetColumn)
    (data : List ConnectionsWidgetData) (descending : Bool) :
    List ConnectionsWidgetData :=
  match c with
  | .Name =>
    sortByStable
      (fun a b => sort_partial_fn descending natCmp (nameSortKey a.name) (nameSortKey b.name))
      data
  | .LocalAddress =>
    sortByStable (fun a b => sort_partial_fn descending strCmp a.local_address b.local_address)
      data
  | .RemoteAddress =>
    sortByStable (fun a b => sort_partial_fn descending strCmp a.remote_address b.remote_address)
      data
  | .Status =>
    sortByStable (fun a b => sort_partial_fn descending strCmp a.status b.status) data

/-- Active sort order of a sortable table. -/
inductive SortOrder
  | Ascending
  | Descending
deriving DecidableEq, Repr

/-- Modelled from the spec: the generic `SortDataTable` engine lives in
`src/components/data_table`, which is not among the provided sources.  Per
§3/§4.7 it owns the current row set (replaced wholesale on ingest), the
active sort column index and the sort order. -/
structure SortDataTable where
  columns : List ConnectionsWidgetColumn
  sort_index : Nat
  order : SortOrder
  data : List ConnectionsWidgetData
deriving DecidableEq, Repr

/-- Modelled from the spec: `DataTable::set_data` (§4.7) replaces the row
set wholesale. -/
def SortDataTable.set_data (t : SortDataTable) (rows : List ConnectionsWidgetData) :
    SortDataTable :=
  { t with data := rows }

/-- Modelled from the spec: `SortColumn::sort_by` applies the wrapped
column's `sort_data` with the direction taken from the active sort order
(§4.7: descending reverses the column's ordering function). -/
def SortColumn.sort_by (c : ConnectionsWidgetColumn) (data : List ConnectionsWidgetData)
    (order : SortOrder) : List ConnectionsWidgetData :=
  c.sort_data data (match order with | SortOrder.Descending => true | SortOrder.Ascending => false)

/-- Widget state of the connections table. -/
structure ConnectionsWidgetState where
  table : SortDataTable
deriving DecidableEq, Repr

/-- `ConnectionsWidgetState::new` (`connections_table.rs:124-150`): four
soft-sortable columns, active sort index `0` (the `Name` column), order
`Descending`. -/
def ConnectionsWidgetState.new : ConnectionsWidgetState :=
  { table :=
    { columns := [ConnectionsWidgetColumn.Name, ConnectionsWidgetColumn.LocalAddress,
                  ConnectionsWidgetColumn.RemoteAddress, ConnectionsWidgetColumn.Status]
      sort_index := 0
      order := SortOrder.Descending
      data := [] } }

/-- `ConnectionsWidgetState::ingest_data` (`connections_table.rs:152-158`):
copy the incoming rows, sort the copy by the active column and order if one
exists, and store it wholesale. -/
def ConnectionsWidgetState.ingest_data (s : ConnectionsWidgetState)
    (data : List ConnectionsWidgetData) : ConnectionsWidgetState :=
  let data :=
    match s.table.columns[s.table.sort_index]? with
    | some column => SortColumn.sort_by column data s.table.order
    | none => data
  { s with table := s.table.set_data data }

/-- Whether two rows carry equal sort keys for a column (the key a column's
`sort_data` comparator is driven by). -/
def rowKeyEq (c : ConnectionsWidgetColumn) (a b : ConnectionsWidgetData) : Bool :=
  match c with
  | .Name => nameSortKey a.name == nameSortKey b.name
  | .LocalAddress => a.local_address == b.local_address
  | .RemoteAddress => a.remote_address == b.remote_address
  | .Status => a.status == b.status

/-! ## Events (`src/lib.rs:74-90`) -/

/-- Key codes of the terminal key events that the modelled handlers
distinguish (a subset of crossterm's `KeyCode`). -/
inductive KeyCode
  | Up
  | Down
  | Left
  | Right
  | Enter
  | Backspace
  | Char (c : Char)
  | Delete
  | F (n : Nat)
  | End
  | PageUp
  | PageDown
  | Esc
  | Other
deriving DecidableEq, Repr

/-- A key event; of the modifier set only `CONTROL` matters to the
terminal-widget branch of the key handler, so it is carried as a flag. -/
structure KeyEvent where
  code : KeyCode
  ctrl : Bool
deriving DecidableEq, Repr

/-- crossterm `MouseEventKind` (the variants the input thread
distinguishes; `Down`/`Up` stand for the button press/release kinds that
fall into its catch-all send arm). -/
inductive MouseEventKind
  | Down
  | Up
  | Drag
  | Moved
  | ScrollDown
  | ScrollUp
deriving DecidableEq, Repr

/-- crossterm `MouseEvent`. -/
structure MouseEvent where
  kind : MouseEventKind
  column : Nat
  row : Nat
deriving DecidableEq, Repr

/-- `BottomEvent` (`lib.rs:74-82`); the harvested `Data` payload is
abstracted to an opaque `Nat` snapshot id. -/
inductive BottomEvent
  | Resize
  | KeyInput (key : KeyEvent)
  | MouseInput (event : MouseEvent)
  | PasteEvent (text : String)
  | Update (data : Nat)
  | Clean
deriving DecidableEq, Repr

/-! ## Terminal widget state (`src/widgets/terminal_widget.rs`) -/

/-- `TerminalWidgetState` (`terminal_widget.rs:9-17`).  The `VecDeque` is
embedded as a list whose head is the deque's front; the raw `sender`
pointer is dropped (sends are modelled in the worker trace below). -/
structure TerminalWidgetState where
  stdout : String
  stdin : List String
  offset : Nat
  input_offset : Nat
  selected_input : Nat
  is_working : Bool
deriving DecidableEq, Repr

/-- `Default for TerminalWidgetState` (`terminal_widget.rs:19-31`): one
empty input line, everything else zeroed. -/
def TerminalWidgetState.default : TerminalWidgetState :=
  { stdout := ""
    stdin := [""]
    offset := 0
    input_offset := 0
    selected_input := 0
    is_working := false }

/-- `TerminalWidgetState::current_input` (`terminal_widget.rs:34-36`)
returns `self.stdin.get(self.selected_input)`; the source unwraps the
result, so the lookup is kept as an `Option` and the safety theorem shows
it is always `some`. -/
def TerminalWidgetState.current_input (t : TerminalWidgetState) : Option String :=
  t.stdin[t.selected_input]?

/-- `UnsafeTerminalWidgetState::stdin` (`terminal_widget.rs:67-87`): clone
the selected input; if it is non-empty, rewrite the front entry when a
history entry was selected, push a fresh empty front line and trim the
back of the deque down to 500 entries; reset the selection; echo the
trimmed command into `stdout`.  Returns the cloned command. -/
def UnsafeTerminalWidgetState.stdin (t : TerminalWidgetState) :
    TerminalWidgetState × String :=
  let stdin := t.current_input.getD ""
  let t :=
    if stdin ≠ "" then
      let t :=
        if t.selected_input > 0 then
          { t with stdin := stdin :: t.stdin.tail }
        else t
      let t := { t with stdin := "" :: t.stdin }
      { t with stdin := t.stdin.take 500 }
    else t
  let t := { t with selected_input := 0 }
  let trimmed := stdin.trim
  let t :=
    if trimmed ≠ "" then { t with stdout := t.stdout ++ "$ " ++ trimmed ++ "\n" }
    else t
  (t, stdin)

/-- Bytes-to-text conversion used by `append_output`
(`from_utf8_lossy(strip(output))`); the ANSI stripper and UTF-8 decoding
are external collaborators, abstracted to a code-point map. -/
def outputText (output : List Nat) : String :=
  ⟨output.map Char.ofNat⟩

/-- `UnsafeTerminalWidgetState::append_output`
(`terminal_widget.rs:89-96`): appends the stripped output to `stdout` and
sends `BottomEvent::Resize`, discarding the send result
(`unwrap_unchecked`). -/
def UnsafeTerminalWidgetState.append_output (t : TerminalWidgetState)
    (output : List Nat) : TerminalWidgetState :=
  { t with stdout := t.stdout ++ outputText output }

/-- `UnsafeTerminalWidgetState::limit_output`
(`terminal_widget.rs:98-109`): when `stdout` exceeds 100000 characters,
drop characters from the front until exactly 100000 remain. -/
def UnsafeTerminalWidgetState.limit_output (t : TerminalWidgetState) :
    TerminalWidgetState :=
  if t.stdout.toList.length > 100000 then
    { t with stdout := ⟨t.stdout.toList.drop (t.stdout.toList.length - 100000)⟩ }
  else t

/-- `UnsafeTerminalWidgetState::finish` (`terminal_widget.rs:111-118`):
clears `is_working` and sends `BottomEvent::Resize`, discarding the send
result (`unwrap_unchecked`). -/
def UnsafeTerminalWidgetState.finish (t : TerminalWidgetState) :
    TerminalWidgetState :=
  { t with is_working := false }

/-- Insert a character at a char index of a string
(Rust `String::insert`; only ASCII chars reach it, for which byte and char
indices agree). -/
def strInsertAt (s : String) (i : Nat) (c : Char) : String :=
  ⟨s.toList.take i ++ c :: s.toList.drop i⟩

/-- Remove the character at a char index of a string
(Rust `String::remove`). -/
def strRemoveAt (s : String) (i : Nat) : String :=
  ⟨s.toList.take i ++ s.toList.drop (i + 1)⟩

/-- The terminal-widget branch of `handle_key_event_or_break`
(`lib.rs:132-261`) as a transformer of the terminal widget state.  The
`expanded` flag stands for `app.is_expanded`; the spawned worker of the
`Enter` arm is modelled as the separate `worker` operations below.
Returns the updated widget state and `is_expanded` flag. -/
def handle_terminal_key (t : TerminalWidgetState) (expanded : Bool) (e : KeyEvent) :
    TerminalWidgetState × Bool :=
  if e.ctrl then (t, expanded)
  else
    match e.code with
    | KeyCode.End => ({ t with offset := 0 }, expanded)
    | KeyCode.PageUp => ({ t with offset := t.offset + 1 }, expanded)
    | KeyCode.PageDown =>
      if t.offset > 0 then ({ t with offset := t.offset - 1 }, expanded) else (t, expanded)
    | KeyCode.Esc => (t, false)
    | code =>
      if expanded ∧ ¬ t.is_working then
        match code with
        | KeyCode.Up =>
          if t.selected_input < t.stdin.length - 1 then
            ({ t with selected_input := t.selected_input + 1 }, expanded)
          else (t, expanded)
        | KeyCode.Down =>
          if t.selected_input > 0 then
            ({ t with selected_input := t.selected_input - 1 }, expanded)
          else (t, expanded)
        | KeyCode.Left =>
          if t.input_offset < (t.current_input.getD "").toList.length then
            ({ t with input_offset := t.input_offset + 1 }, expanded)
          else (t, expanded)
        | KeyCode.Right =>
          if t.input_offset > 0 then
            ({ t with input_offset := t.input_offset - 1 }, expanded)
          else (t, expanded)
        | KeyCode.Enter =>
          if t.stdin ≠ [] then
            ({ t with is_working := true, input_offset := 0 }, expanded)
          else (t, expanded)
        | KeyCode.Backspace =>
          match t.stdin[t.selected_input]? with
          | none => (t, expanded)
          | some input =>
            match
              (if input = "" then none
               else if input.toList.length > t.input_offset then
                 some (input.toList.length - t.input_offset - 1)
               else none) with
            | some off =>
              ({ t with stdin := t.stdin.set t.selected_input (strRemoveAt input off) },
               expanded)
            | none => (t, expanded)
        | KeyCode.Char c =>
          if c.toNat < 128 then
            match t.stdin[t.selected_input]? with
            | some input =>
              ({ t with
                  stdin := t.stdin.set t.selected_input
                    (strInsertAt input (input.toList.length - t.input_offset) c) },
               expanded)
            | none => (t, expanded)
          else (t, expanded)
        | KeyCode.Delete =>
          match t.stdin[t.selected_input]? with
          | none => (t, expanded)
          | some input =>
            match
              (if t.input_offset = 0 then none
               else if input.toList.length ≥ t.input_offset then
                 some (input.toList.length - t.input_offset)
               else none) with
            | some off =>
              ({ t with
                  stdin := t.stdin.set t.selected_input (strRemoveAt input off)
                  input_offset := t.input_offset - 1 },
               expanded)
            | none => (t, expanded)
        | KeyCode.F 9 => ({ t with stdout := "", offset := 0 }, expanded)
        | _ => (t, expanded)
      else (t, expanded)

/-- The public operations on a terminal widget state: key-input handling
and the calls the spawned worker performs. -/
inductive TerminalOp
  | key (event : KeyEvent) (expanded : Bool)
  | worker_stdin
  | worker_append (output : List Nat)
  | worker_limit
  | worker_finish

/-- Apply one operation. -/
def TerminalOp.apply (t : TerminalWidgetState) : TerminalOp → TerminalWidgetState
  | .key e expanded => (handle_terminal_key t expanded e).1
  | .worker_stdin => (UnsafeTerminalWidgetState.stdin t).1
  | .worker_append output => UnsafeTerminalWidgetState.append_output t output
  | .worker_limit => UnsafeTerminalWidgetState.limit_output t
  | .worker_finish => UnsafeTerminalWidgetState.finish t

/-- Run a sequence of operations from the default state. -/
def runTerminalOps (ops : List TerminalOp) : TerminalWidgetState :=
  ops.foldl TerminalOp.apply TerminalWidgetState.default

/-- Send trace of the worker's output-pumping loop (`lib.rs:184-191`):
each chunk read from the child produces one `append_output` call, hence
one `Resize` send attempt whose result is ignored.  `send_ok k` is the
result of the `k`-th send; the returned list records the results in
order. -/
def worker_append_loop (t : TerminalWidgetState) (chunks : List (List Nat))
    (send_ok : Nat → Bool) (k : Nat) : TerminalWidgetState × List Bool × Nat :=
  match chunks with
  | [] => (t, [], k)
  | c :: cs =>
    let t := UnsafeTerminalWidgetState.append_output t c
    let r := send_ok k
    let (t', rs, k') := worker_append_loop t cs send_ok (k + 1)
    (t', r :: rs, k')

/-- The spawned worker closure (`lib.rs:175-198`): run `stdin()`, pump the
child's output through `append_output` (one ignored send per chunk),
append the final output (one ignored send), `limit_output`, then
`finish` (one ignored send).  Returns the final widget state and the
ordered list of send results — every one of which is discarded by
`unwrap_unchecked`, so the trace always runs to completion. -/
def worker_run (t : TerminalWidgetState) (chunks : List (List Nat))
    (end_bytes : List Nat) (send_ok : Nat → Bool) :
    TerminalWidgetState × List Bool :=
  let (t, _command) := UnsafeTerminalWidgetState.stdin t
  let (t, rs, k) := worker_append_loop t chunks send_ok 0
  let t := UnsafeTerminalWidgetState.append_output t end_bytes
  let r1 := send_ok k
  let t := UnsafeTerminalWidgetState.limit_output t
  let t := UnsafeTerminalWidgetState.finish t
  let r2 := send_ok (k + 1)
  (t, rs ++ [r1, r2])

/-! ## The input thread (`src/lib.rs:533-594`)

One iteration of the polling loop.  The environment carries the results of
the impure calls: the non-blocking `try_lock` of the termination flag
(`none` when the lock is contended), the polled event (`none` when `poll`
timed out or `read` failed), the clock value at the debounce check in
milliseconds, and the result the channel send would have. -/

/-- crossterm input events as the thread's match distinguishes them;
`FocusChange` stands for the events falling into the final `_ => ()`. -/
inductive CrosstermEvent
  | Resize (w h : Nat)
  | Key (key : KeyEvent)
  | Mouse (event : MouseEvent)
  | Paste (text : String)
  | FocusChange
deriving DecidableEq, Repr

/-- Environment of one input-thread iteration. -/
structure InputEnv where
  term : Option Bool
  event : Option CrosstermEvent
  now : Nat
  send_ok : Bool
deriving Repr

/-- Outcome of one input-thread iteration. -/
inductive InputOutcome
  | exit_terminated
  | exit_send_failed
  | next (mouse_timer : Nat)
deriving DecidableEq, Repr

/-- One iteration of `create_input_thread`'s loop (`lib.rs:539-592`).
`mouse_timer` is the `Instant` of the last forwarded scroll event, as a
millisecond clock value.  Returns the event whose send was attempted (if
any) and the outcome. -/
def create_input_thread_iter (mouse_timer : Nat) (env : InputEnv) :
    Option BottomEvent × InputOutcome :=
  if env.term = some true then (none, InputOutcome.exit_terminated)
  else
    match env.event with
    | none => (none, InputOutcome.next mouse_timer)
    | some ev =>
      match ev with
      | .Resize _ _ =>
        (some BottomEvent.Resize,
         if env.send_ok then InputOutcome.next mouse_timer
         else InputOutcome.exit_send_failed)
      | .Paste paste =>
        (some (BottomEvent.PasteEvent paste),
         if env.send_ok then InputOutcome.next mouse_timer
         else InputOutcome.exit_send_failed)
      | .Key key =>
        (some (BottomEvent.KeyInput key),
         if env.send_ok then InputOutcome.next mouse_timer
         else InputOutcome.exit_send_failed)
      | .Mouse mouse =>
        match mouse.kind with
        | MouseEventKind.Moved => (none, InputOutcome.next mouse_timer)
        | MouseEventKind.Drag => (none, InputOutcome.next mouse_timer)
        | MouseEventKind.ScrollDown =>
          if env.now - mouse_timer ≥ 20 then
            (some (BottomEvent.MouseInput mouse),
             if env.send_ok then InputOutcome.next env.now
             else InputOutcome.exit_send_failed)
          else (none, InputOutcome.next mouse_timer)
        | MouseEventKind.ScrollUp =>
          if env.now - mouse_timer ≥ 20 then
            (some (BottomEvent.MouseInput mouse),
             if env.send_ok then InputOutcome.next env.now
             else InputOutcome.exit_send_failed)
          else (none, InputOutcome.next mouse_timer)
        | _ =>
          (some (BottomEvent.MouseInput mouse),
           if env.send_ok then InputOutcome.next mouse_timer
           else InputOutcome.exit_send_failed)
      | .FocusChange => (none, InputOutcome.next mouse_timer)

/-! ## Configuration and the collection thread (`src/lib.rs:596-681`) -/

/-- Modelled from the spec: the temperature unit enum lives in
`src/options.rs`, absent from the sources; §6 names a `temperature_unit`
configuration value. -/
inductive TemperatureType
  | Celsius
  | Kelvin
  | Fahrenheit
deriving DecidableEq, Repr

/-- The fields of `AppConfigFields` the modelled components consume
(§6: `retention_ms`, `update_rate_ms`, `temperature_unit`, CPU flags). -/
structure AppConfigFields where
  temperature_type : TemperatureType
  use_current_cpu_total : Bool
  unnormalized_cpu : Bool
  show_average_cpu : Bool
  update_rate_in_milliseconds : Nat
  retention_ms : Nat
deriving DecidableEq, Repr

/-- The per-category harvest switches of `UsedWidgets`
(`app/layout_manager`, consumed in `src/bin/main.rs`). -/
structure UsedWidgets where
  use_cpu : Bool
  use_mem : Bool
  use_net : Bool
  use_proc : Bool
  use_disk : Bool
  use_temp : Bool
deriving DecidableEq, Repr

/-- `ThreadControlEvent` (`lib.rs:84-90`). -/
inductive ThreadControlEvent
  | Reset
  | UpdateConfig (fields : AppConfigFields)
  | UpdateUsedWidgets (set : UsedWidgets)
  | UpdateUpdateTime (ms : Nat)
deriving DecidableEq, Repr

/-- The harvester (`data_harvester::DataCollector`, absent from the
sources).  Modelled from the spec: §6's `configure(fields)` /
`set_active_categories(set)` store the configured temperature unit, CPU
aggregation flags and active category set; the pending harvested `Data`
is abstracted to an opaque snapshot id, `0` standing for
`Data::default()`. -/
structure DataCollector where
  temperature_type : TemperatureType
  use_current_cpu_total : Bool
  unnormalized_cpu : Bool
  show_average_cpu : Bool
  used_widgets : UsedWidgets
  data : Nat
deriving DecidableEq, Repr

/-- Modelled from the spec: `set_temperature_type` stores the unit (§6). -/
def DataCollector.set_temperature_type (d : DataCollector) (t : TemperatureType) :
    DataCollector :=
  { d with temperature_type := t }

/-- Modelled from the spec: `set_use_current_cpu_total` stores the flag (§6). -/
def DataCollector.set_use_current_cpu_total (d : DataCollector) (b : Bool) :
    DataCollector :=
  { d with use_current_cpu_total := b }

/-- Modelled from the spec: `set_unnormalized_cpu` stores the flag (§6). -/
def DataCollector.set_unnormalized_cpu (d : DataCollector) (b : Bool) :
    DataCollector :=
  { d with unnormalized_cpu := b }

/-- Modelled from the spec: `set_show_average_cpu` stores the flag (§6). -/
def DataCollector.set_show_average_cpu (d : DataCollector) (b : Bool) :
    DataCollector :=
  { d with show_average_cpu := b }

/-- Modelled from the spec: `set_data_collection` stores the set of
categories to harvest (§6 `set_active_categories`). -/
def DataCollector.set_data_collection (d : DataCollector) (s : UsedWidgets) :
    DataCollector :=
  { d with used_widgets := s }

/-- Modelled from the spec: `Data::cleanup` clears the retained history
(§4.3 `Reset`). -/
def DataCollector.cleanup (d : DataCollector) : DataCollector :=
  { d with data := 0 }

/-- Modelled from the spec: `update_data` harvests a fresh snapshot
(§6 `collect()`); the snapshot contents are abstract, so the opaque id is
bumped. -/
def DataCollector.update_data (d : DataCollector) : DataCollector :=
  { d with data := d.data + 1 }

/-- The observable actions of one collection-thread iteration, in program
order. -/
inductive CollectionAction
  | check_termination
  | poll_control
  | collect
  | send_update (payload : Nat)
  | wait (ms : Nat)
deriving DecidableEq, Repr

/-- Outcome of one collection-thread iteration: the loop either breaks at
one of its four exit points or continues with the updated collector. -/
inductive CollectionOutcome
  | exit_at_top_check
  | exit_at_mid_check
  | exit_at_send
  | exit_at_wait
  | next (ds : DataCollector)
deriving DecidableEq, Repr

/-- Environment of one collection-thread iteration: the two non-blocking
`try_lock` observations of the termination flag (`none` when contended),
the control-channel `try_recv` result, the send result, and the flag
value observed when `wait_timeout` returns (`none` when it returns
`Err`). -/
structure CollectionEnv where
  term_top : Option Bool
  control : Option ThreadControlEvent
  term_mid : Option Bool
  send_ok : Bool
  wait_flag : Option Bool
deriving Repr

/-- One iteration of `create_collection_thread`'s loop (`lib.rs:619-679`).
`captured` holds the config values the closure captured at spawn time
(`lib.rs:602-606`); note `update_time` is re-initialised from the captured
`update_rate_in_milliseconds` at the top of every iteration
(`lib.rs:629`), and that the `UpdateConfig` arm passes the *captured*
`unnormalized_cpu` to its setter (`lib.rs:640`). -/
def create_collection_thread_iter (captured : AppConfigFields) (ds : DataCollector)
    (env : CollectionEnv) : List CollectionAction × CollectionOutcome :=
  if env.term_top = some true then
    ([CollectionAction.check_termination], CollectionOutcome.exit_at_top_check)
  else
    let update_time := captured.update_rate_in_milliseconds
    let (update_time, ds) :=
      match env.control with
      | some ThreadControlEvent.Reset => (update_time, ds.cleanup)
      | some (ThreadControlEvent.UpdateConfig app_config_fields) =>
        (update_time,
         (((ds.set_temperature_type app_config_fields.temperature_type).set_use_current_cpu_total
             app_config_fields.use_current_cpu_total).set_unnormalized_cpu
             captured.unnormalized_cpu).set_show_average_cpu
             app_config_fields.show_average_cpu)
      | some (ThreadControlEvent.UpdateUsedWidgets used_widget_set) =>
        (update_time, ds.set_data_collection used_widget_set)
      | some (ThreadControlEvent.UpdateUpdateTime new_time) => (new_time, ds)
      | none => (update_time, ds)
    let ds := ds.update_data
    if env.term_mid = some true then
      ([CollectionAction.check_termination, CollectionAction.poll_control,
        CollectionAction.collect, CollectionAction.check_termination],
       CollectionOutcome.exit_at_mid_check)
    else
      let payload := ds.data
      let ds := { ds with data := 0 }
      if env.send_ok then
        if env.wait_flag = some true then
          ([CollectionAction.check_termination, CollectionAction.poll_control,
            CollectionAction.collect, CollectionAction.check_termination,
            CollectionAction.send_update payload, CollectionAction.wait update_time],
           CollectionOutcome.exit_at_wait)
        else
          ([CollectionAction.check_termination, CollectionAction.poll_control,
            CollectionAction.collect, CollectionAction.check_termination,
            CollectionAction.send_update payload, CollectionAction.wait update_time],
           CollectionOutcome.next ds)
      else
        ([CollectionAction.check_termination, CollectionAction.poll_control,
          CollectionAction.collect, CollectionAction.check_termination,
          CollectionAction.send_update payload],
         CollectionOutcome.exit_at_send)

/-! ## The cleaning thread (`src/bin/main.rs:89-118`) -/

/-- `offset_wait_time` (`main.rs:93-100`): the configured retention
duration plus a fixed 60000 ms margin, computed once before the loop. -/
def offset_wait_time (retention_ms : Nat) : Nat :=
  retention_ms + 60000

/-- Environment of one cleaning-thread iteration: the flag value observed
when `wait_timeout` returns `Ok` (`none` when it returns `Err`), and the
send result. -/
structure CleaningEnv where
  wait_flag : Option Bool
  send_ok : Bool
deriving Repr

/-- Outcome of one cleaning-thread iteration. -/
inductive CleaningOutcome
  | exit_at_flag
  | exit_at_send
  | next
deriving DecidableEq, Repr

/-- One iteration of the cleaning loop (`main.rs:101-117`): wait on the
termination condvar for `offset_wait_time retention_ms` milliseconds; if
the wake observed the flag set, break; otherwise send one `Clean` event
and break when the send fails.  Returns the wait duration used, the
events sent, and the outcome. -/
def cleaning_thread_iter (retention_ms : Nat) (env : CleaningEnv) :
    Nat × List BottomEvent × CleaningOutcome :=
  let wait_ms := offset_wait_time retention_ms
  if env.wait_flag = some true then
    (wait_ms, [], CleaningOutcome.exit_at_flag)
  else
    (wait_ms, [BottomEvent.Clean],
     if env.send_ok then CleaningOutcome.next else CleaningOutcome.exit_at_send)

/-! ## MainLoop `Update` ingest and dirty tracking
(`src/bin/main.rs:214-498`, `src/lib.rs:452-531`)

The model tracks, per table-backed widget state, its `force_update_data`
dirty flag and a counter of how many times it has re-derived its view
(`ingest_data` / `update_table` calls), and the `force_update` option
flags of the cpu/mem/net states (`isSome` as a `Bool`). -/

/-- Dirty flag plus recompute counter of one table-backed widget state. -/
structure WidgetFlags where
  force_update_data : Bool
  recomputes : Nat
deriving DecidableEq, Repr

/-- Modelled from the spec: `force_data_update` lives in the
`data_table` component, absent from the sources; per §4.8 it sets the
widget's dirty ("needs recompute") flag. -/
def WidgetFlags.force_data_update (w : WidgetFlags) : WidgetFlags :=
  { w with force_update_data := true }

/-- The application state that the `Update` ingest path touches. -/
structure AppModel where
  used_widgets : UsedWidgets
  frozen : Bool
  proc_widgets : List WidgetFlags
  cpu_widgets : List WidgetFlags
  temp_widgets : List WidgetFlags
  disk_widgets : List WidgetFlags
  connections_widgets : List WidgetFlags
  cpu_force_update : Bool
  mem_force_update : Bool
  net_force_update : Bool
deriving DecidableEq, Repr

/-- `update_data` (`lib.rs:452-531`): process widgets recompute and clear
their flag when it is set; the cpu/mem/net converted data recomputes when
the respective `force_update` option is set (then cleared); every cpu
widget's `update_table` and every connections widget's `ingest_data` runs
unconditionally (`lib.rs:474-479` and `lib.rs:498-502`); temp and disk
widgets recompute and clear their flag when it is set. -/
def update_data (a : AppModel) : AppModel :=
  let a :=
    { a with
        proc_widgets := a.proc_widgets.map fun (w : WidgetFlags) =>
          if w.force_update_data then
            { w with recomputes := w.recomputes + 1, force_update_data := false }
          else w }
  let a := if a.cpu_force_update then { a with cpu_force_update := false } else a
  let a :=
    { a with
        cpu_widgets := a.cpu_widgets.map fun (w : WidgetFlags) => { w with recomputes := w.recomputes + 1 } }
  let a :=
    { a with
        temp_widgets := a.temp_widgets.map fun (w : WidgetFlags) =>
          if w.force_update_data then
            { w with recomputes := w.recomputes + 1, force_update_data := false }
          else w }
  let a :=
    { a with
        disk_widgets := a.disk_widgets.map fun (w : WidgetFlags) =>
          if w.force_update_data then
            { w with recomputes := w.recomputes + 1, force_update_data := false }
          else w }
  let a :=
    { a with
        connections_widgets := a.connections_widgets.map fun (w : WidgetFlags) =>
          { w with recomputes := w.recomputes + 1 } }
  let a := if a.mem_force_update then { a with mem_force_update := false } else a
  let a := if a.net_force_update then { a with net_force_update := false } else a
  a

/-- The `BottomEvent::Update` arm of the main loop (`main.rs:214-497`):
after `eat_data`, when not frozen, converted data is rebuilt and the
*disk*, *temp* and *proc* widget states are force-updated when their
category is in `used_widgets` (`main.rs:317-336`, `339-365`, `457-469`);
the net/mem/cpu paths write converted data directly without touching any
`force_update` flag, and the connections converted data is rebuilt
whenever a connections widget exists.  Then `update_data` runs.  (Only the
dirty-flag/recompute effects are tracked; snapshot contents are out of
the model.) -/
def handle_update_event (a : AppModel) : AppModel :=
  if a.frozen then a
  else
    let a :=
      if a.used_widgets.use_disk then
        { a with disk_widgets := a.disk_widgets.map WidgetFlags.force_data_update }
      else a
    let a :=
      if a.used_widgets.use_temp then
        { a with temp_widgets := a.temp_widgets.map WidgetFlags.force_data_update }
      else a
    let a :=
      if a.used_widgets.use_proc then
        { a with proc_widgets := a.proc_widgets.map WidgetFlags.force_data_update }
      else a
    update_data a

/-! ## Concrete fixtures used to evaluate the models at specific inputs -/

/-- A startup configuration: 1000 ms update rate, CPU flags all off. -/
def sampleConfig : AppConfigFields :=
  { temperature_type := TemperatureType.Celsius
    use_current_cpu_total := false
    unnormalized_cpu := false
    show_average_cpu := false
    update_rate_in_milliseconds := 1000
    retention_ms := 600000 }

/-- A reconfiguration message turning every reconfigurable field on /
changing it away from `sampleConfig`. -/
def newConfig : AppConfigFields :=
  { temperature_type := TemperatureType.Fahrenheit
    use_current_cpu_total := true
    unnormalized_cpu := true
    show_average_cpu := true
    update_rate_in_milliseconds := 2000
    retention_ms := 600000 }

/-- All metric categories active. -/
def allWidgets : UsedWidgets :=
  { use_cpu := true, use_mem := true, use_net := true
    use_proc := true, use_disk := true, use_temp := true }

/-- No metric category active. -/
def noWidgets : UsedWidgets :=
  { use_cpu := false, use_mem := false, use_net := false
    use_proc := false, use_disk := false, use_temp := false }

/-- The collector as the collection thread configures it at spawn from
`sampleConfig` (`lib.rs:609-617`), with no pending data. -/
def sampleCollector : DataCollector :=
  { temperature_type := TemperatureType.Celsius
    use_current_cpu_total := false
    unnormalized_cpu := false
    show_average_cpu := false
    used_widgets := allWidgets
    data := 0 }

/-- An application with one cpu widget and one connections widget, no
category in `used_widgets`, not frozen, no dirty flag set anywhere. -/
def sampleApp : AppModel :=
  { used_widgets := noWidgets
    frozen := false
    proc_widgets := []
    cpu_widgets := [{ force_update_data := false, recomputes := 0 }]
    temp_widgets := []
    disk_widgets := []
    connections_widgets := [{ force_update_data := false, recomputes := 0 }]
    cpu_force_update := false
    mem_force_update := false
    net_force_update := false }

/-! ## Lemmas about the comparators -/

theorem natCmp_eq_eq {a b : Nat} : natCmp a b = Ordering.eq ↔ a = b := by
  unfold natCmp
  split <;> rename_i h₁
  · simp
    omega
  · split <;> rename_i h₂ <;> simp [h₂]

theorem natCmp_eq_gt {a b : Nat} : natCmp a b = Ordering.gt ↔ b < a := by
  unfold natCmp
  split <;> rename_i h₁
  · simp
    omega
  · split <;> rename_i h₂
    · simp
      omega
    · simp
      omega

theorem charCmp_eq_eq {a b : Char} : charCmp a b = Ordering.eq ↔ a = b := by
  unfold charCmp
  rw [natCmp_eq_eq]
  constructor
  · intro h
    exact Char.ext (UInt32.ext h)
  · intro h
    rw [h]

theorem lexCmp_eq_eq {as bs : List Char} : lexCmp as bs = Ordering.eq ↔ as = bs := by
  induction as generalizing bs with
  | nil => cases bs <;> simp [lexCmp]
  | cons a as ih =>
    cases bs with
    | nil => simp [lexCmp]
    | cons b bs =>
      simp only [lexCmp]
      cases h : charCmp a b with
      | eq =>
        have hab : a = b := charCmp_eq_eq.mp h
        simp [ih, hab]
      | lt =>
        have hab : a ≠ b := fun hab => by simp [charCmp_eq_eq.mpr hab] at h
        simp [hab]
      | gt =>
        have hab : a ≠ b := fun hab => by simp [charCmp_eq_eq.mpr hab] at h
        simp [hab]

theorem strCmp_eq_eq {a b : String} : strCmp a b = Ordering.eq ↔ a = b := by
  unfold strCmp
  rw [lexCmp_eq_eq]
  constructor
  · intro h
    cases a
    cases b
    exact congrArg String.mk (by simpa [String.toList] using h)
  · intro h
    rw [h]

theorem sort_partial_fn_eq_eq {cmp : β → β → Ordering}
    (hcmp : ∀ x y : β, cmp x y = Ordering.eq ↔ x = y) (descending : Bool) (a b : β) :
    sort_partial_fn descending cmp a b = Ordering.eq ↔ a = b := by
  unfold sort_partial_fn
  cases descending <;> simp [hcmp]
  exact eq_comm

/-! ## Lemmas about the stable sort -/

theorem insertSorted_perm (cmp : α → α → Ordering) (a : α) (l : List α) :
    (insertSorted cmp a l).Perm (a :: l) := by
  induction l with
  | nil => simp [insertSorted]
  | cons b l ih =>
    simp only [insertSorted]
    cases h : cmp a b with
    | gt => exact List.Perm.trans (ih.cons b) (List.Perm.swap a b l)
    | lt => exact List.Perm.refl _
    | eq => exact List.Perm.refl _

theorem sortByStable_perm (cmp : α → α → Ordering) (l : List α) :
    (sortByStable cmp l).Perm l := by
  induction l with
  | nil => exact List.Perm.refl _
  | cons a l ih =>
    exact (insertSorted_perm cmp a (sortByStable cmp l)).trans (ih.cons a)

theorem mem_insertSorted {cmp : α → α → Ordering} {a x : α} {l : List α} :
    x ∈ insertSorted cmp a l ↔ x = a ∨ x ∈ l := by
  rw [(insertSorted_perm cmp a l).mem_iff]
  simp

theorem pairwise_insertSorted {cmp : α → α → Ordering}
    (htot : ∀ x y, cmp x y = Ordering.gt → cmp y x ≠ Ordering.gt)
    (htrans : ∀ x y z, cmp x y ≠ Ordering.gt → cmp y z ≠ Ordering.gt →
      cmp x z ≠ Ordering.gt)
    {a : α} {l : List α}
    (hl : l.Pairwise (fun x y => cmp x y ≠ Ordering.gt)) :
    (insertSorted cmp a l).Pairwise (fun x y => cmp x y ≠ Ordering.gt) := by
  induction hl with
  | nil => simp [insertSorted]
  | @cons b l' hb hpl ih =>
    simp only [insertSorted]
    cases h : cmp a b with
    | gt =>
      rw [List.pairwise_cons]
      constructor
      · intro x hx
        rcases mem_insertSorted.mp hx with hxa | hxl
        · rw [hxa]
          exact htot a b h
        · exact hb x hxl
      · exact ih
    | lt =>
      rw [List.pairwise_cons]
      refine ⟨?_, by rw [List.pairwise_cons]; exact ⟨hb, hpl⟩⟩
      intro x hx
      rcases List.mem_cons.mp hx with hxb | hxl
      · subst hxb
        simp [h]
      · exact htrans a b x (by simp [h]) (hb x hxl)
    | eq =>
      rw [List.pairwise_cons]
      refine ⟨?_, by rw [List.pairwise_cons]; exact ⟨hb, hpl⟩⟩
      intro x hx
      rcases List.mem_cons.mp hx with hxb | hxl
      · subst hxb
        simp [h]
      · exact htrans a b x (by simp [h]) (hb x hxl)

theorem sortByStable_pairwise (cmp : α → α → Ordering)
    (htot : ∀ x y, cmp x y = Ordering.gt → cmp y x ≠ Ordering.gt)
    (htrans : ∀ x y z, cmp x y ≠ Ordering.gt → cmp y z ≠ Ordering.gt →
      cmp x z ≠ Ordering.gt)
    (l : List α) :
    (sortByStable cmp l).Pairwise (fun x y => cmp x y ≠ Ordering.gt) := by
  induction l with
  | nil => simp [sortByStable]
  | cons a l ih => exact pairwise_insertSorted htot htrans ih

theorem filter_insertSorted {cmp : α → α → Ordering} {p : α → Bool}
    (hp : ∀ x y, p x = true → p y = true → cmp x y ≠ Ordering.gt)
    (a : α) (l : List α) :
    (insertSorted cmp a l).filter p =
      if p a then a :: l.filter p else l.filter p := by
  induction l with
  | nil =>
    simp only [insertSorted, List.filter]
    cases h : p a <;> simp [h]
  | cons b l ih =>
    simp only [insertSorted]
    cases h : cmp a b with
    | gt =>
      have hpb_of_pa : p a = true → p b = false := by
        intro hpa
        cases hpb : p b
        · rfl
        · exact absurd h (hp a b hpa hpb)
      cases hpa : p a with
      | true =>
        have hpb := hpb_of_pa hpa
        simp [List.filter, hpb, ih, hpa]
      | false =>
        cases hpb : p b <;> simp [List.filter, hpb, ih, hpa]
    | lt =>
      cases hpa : p a <;> simp [List.filter, hpa]
    | eq =>
      cases hpa : p a <;> simp [List.filter, hpa]

theorem filter_sortByStable {cmp : α → α → Ordering} {p : α → Bool}
    (hp : ∀ x y, p x = true → p y = true → cmp x y ≠ Ordering.gt)
    (l : List α) :
    (sortByStable cmp l).filter p = l.filter p := by
  induction l with
  | nil => rfl
  | cons a l ih =>
    simp only [sortByStable]
    rw [filter_insertSorted hp]
    cases hpa : p a <;> simp [List.filter, hpa, ih]

theorem filter_sortByStable_key {β : Type} (k : α → β) (bcmp : β → β → Ordering)
    (hb : ∀ u v, bcmp u v = Ordering.eq ↔ u = v)
    (desc : Bool) (p : α → Bool)
    (hp : ∀ x y, p x = true → p y = true → k x = k y)
    (l : List α) :
    (sortByStable (fun a b => sort_partial_fn desc bcmp (k a) (k b)) l).filter p
      = l.filter p := by
  apply filter_sortByStable
  intro x y hx hy
  have hk := hp x y hx hy
  have heq : bcmp (k y) (k y) = Ordering.eq := (hb _ _).mpr rfl
  cases desc <;> simp [sort_partial_fn, hk, heq]

theorem sort_partial_fn_true (cmp : β → β → Ordering) (a b : β) :
    sort_partial_fn true cmp a b = cmp b a := rfl

theorem sort_partial_fn_false (cmp : β → β → Ordering) (a b : β) :
    sort_partial_fn false cmp a b = cmp a b := rfl

theorem pairwise_sortByStable_nat_desc (k : α → Nat) (l : List α) :
    (sortByStable (fun a b => sort_partial_fn true natCmp (k a) (k b)) l).Pairwise
      (fun a b => k b ≤ k a) := by
  have hp := sortByStable_pairwise
    (fun a b => sort_partial_fn true natCmp (k a) (k b))
    (fun x y hxy => by
      replace hxy : natCmp (k y) (k x) = Ordering.gt := hxy
      show ¬ natCmp (k x) (k y) = Ordering.gt
      rw [natCmp_eq_gt] at hxy ⊢
      omega)
    (fun x y z hxy hyz => by
      replace hxy : ¬ natCmp (k y) (k x) = Ordering.gt := hxy
      replace hyz : ¬ natCmp (k z) (k y) = Ordering.gt := hyz
      show ¬ natCmp (k z) (k x) = Ordering.gt
      rw [natCmp_eq_gt] at hxy hyz ⊢
      omega)
    l
  refine hp.imp ?_
  intro a b h
  replace h : ¬ natCmp (k b) (k a) = Ordering.gt := h
  rw [natCmp_eq_gt] at h
  omega

theorem pairwise_sortByStable_nat_asc (k : α → Nat) (l : List α) :
    (sortByStable (fun a b => sort_partial_fn false natCmp (k a) (k b)) l).Pairwise
      (fun a b => k a ≤ k b) := by
  have hp := sortByStable_pairwise
    (fun a b => sort_partial_fn false natCmp (k a) (k b))
    (fun x y hxy => by
      replace hxy : natCmp (k x) (k y) = Ordering.gt := hxy
      show ¬ natCmp (k y) (k x) = Ordering.gt
      rw [natCmp_eq_gt] at hxy ⊢
      omega)
    (fun x y z hxy hyz => by
      replace hxy : ¬ natCmp (k x) (k y) = Ordering.gt := hxy
      replace hyz : ¬ natCmp (k y) (k z) = Ordering.gt := hyz
      show ¬ natCmp (k x) (k z) = Ordering.gt
      rw [natCmp_eq_gt] at hxy hyz ⊢
      omega)
    l
  refine hp.imp ?_
  intro a b h
  replace h : ¬ natCmp (k a) (k b) = Ordering.gt := h
  rw [natCmp_eq_gt] at h
  omega

/-- C8: ingesting the two connection rows of the scenario while the table's
active sort is descending on the `Name` column places the row with numeric
id 1234 before the row with id 55; in general the `Name` comparator orders
any row list by the integer parsed from the substring before the first
`'/'` of the name (an unparseable one counting as 0): the sorted rows are
a permutation of the input, pairwise descending (resp. ascending) on that
parsed key. -/
theorem name_column_sorts_by_parsed_id :
    ((ConnectionsWidgetState.new.ingest_data
        [⟨"1234/proc", "10.0.0.1:80", "8.8.8.8:443", "ESTABLISHED"⟩,
         ⟨"55/proc", "10.0.0.2:22", "1.1.1.1:53", "LISTEN"⟩]).table.data =
      [⟨"1234/proc", "10.0.0.1:80", "8.8.8.8:443", "ESTABLISHED"⟩,
       ⟨"55/proc", "10.0.0.2:22", "1.1.1.1:53", "LISTEN"⟩]) ∧
    ((ConnectionsWidgetState.new.ingest_data
        [⟨"55/proc", "10.0.0.2:22", "1.1.1.1:53", "LISTEN"⟩,
         ⟨"1234/proc", "10.0.0.1:80", "8.8.8.8:443", "ESTABLISHED"⟩]).table.data =
      [⟨"1234/proc", "10.0.0.1:80", "8.8.8.8:443", "ESTABLISHED"⟩,
       ⟨"55/proc", "10.0.0.2:22", "1.1.1.1:53", "LISTEN"⟩]) ∧
    nameSortKey "1234/proc" = 1234 ∧ nameSortKey "55/proc" = 55 ∧
    nameSortKey "proc" = 0 ∧
    (∀ rows : List ConnectionsWidgetData,
      (ConnectionsWidgetColumn.Name.sort_data rows true).Perm rows ∧
      (ConnectionsWidgetColumn.Name.sort_data rows true).Pairwise
        (fun a b => nameSortKey b.name ≤ nameSortKey a.name)) ∧
    (∀ rows : List ConnectionsWidgetData,
      (ConnectionsWidgetColumn.Name.sort_data rows false).Perm rows ∧
      (ConnectionsWidgetColumn.Name.sort_data rows false).Pairwise
        (fun a b => nameSortKey a.name ≤ nameSortKey b.name)) := by
  refine ⟨by decide, by decide, by decide, by decide, by decide, ?_, ?_⟩
  · intro rows
    exact ⟨sortByStable_perm _ rows,
      pairwise_sortByStable_nat_desc (fun r => nameSortKey r.name) rows⟩
  · intro rows
    exact ⟨sortByStable_perm _ rows,
      pairwise_sortByStable_nat_asc (fun r => nameSortKey r.name) rows⟩

theorem connections_filter_stable (c : ConnectionsWidgetColumn) (desc : Bool)
    (rows : List ConnectionsWidgetData) (r₀ : ConnectionsWidgetData) :
    (c.sort_data rows desc).filter (fun r => rowKeyEq c r₀ r) =
      rows.filter (fun r => rowKeyEq c r₀ r) := by
  cases c with
  | Name =>
    simp only [ConnectionsWidgetColumn.sort_data]
    exact filter_sortByStable_key (fun r => nameSortKey r.name) natCmp
      (fun _ _ => natCmp_eq_eq) desc
      (fun r => rowKeyEq ConnectionsWidgetColumn.Name r₀ r)
      (fun x y hx hy => by
        simp only [rowKeyEq, beq_iff_eq] at hx hy
        show nameSortKey x.name = nameSortKey y.name
        omega)
      rows
  | LocalAddress =>
    simp only [ConnectionsWidgetColumn.sort_data]
    exact filter_sortByStable_key (fun r => r.local_address) strCmp
      (fun _ _ => strCmp_eq_eq) desc
      (fun r => rowKeyEq ConnectionsWidgetColumn.LocalAddress r₀ r)
      (fun x y hx hy => by
        simp only [rowKeyEq, beq_iff_eq] at hx hy
        show x.local_address = y.local_address
        rw [← hx, hy])
      rows
  | RemoteAddress =>
    simp only [ConnectionsWidgetColumn.sort_data]
    exact filter_sortByStable_key (fun r => r.remote_address) strCmp
      (fun _ _ => strCmp_eq_eq) desc
      (fun r => rowKeyEq ConnectionsWidgetColumn.RemoteAddress r₀ r)
      (fun x y hx hy => by
        simp only [rowKeyEq, beq_iff_eq] at hx hy
        show x.remote_address = y.remote_address
        rw [← hx, hy])
      rows
  | Status =>
    simp only [ConnectionsWidgetColumn.sort_data]
    exact filter_sortByStable_key (fun r => r.status) strCmp
      (fun _ _ => strCmp_eq_eq) desc
      (fun r => rowKeyEq ConnectionsWidgetColumn.Status r₀ r)
      (fun x y hx hy => by
        simp only [rowKeyEq, beq_iff_eq] at hx hy
        show x.status = y.status
        rw [← hx, hy])
      rows

/-- C9: for every widget state (hence every active sort column and order)
and every ingested row list, rows whose sort keys compare equal keep their
relative input order (the sort is stable), and a repeated ingest of the
same row list displays the same order. -/
theorem connections_ingest_sort_stable :
    ∀ (s : ConnectionsWidgetState) (rows : List ConnectionsWidgetData)
      (r₀ : ConnectionsWidgetData),
      (match s.table.columns[s.table.sort_index]? with
       | some c =>
         (s.ingest_data rows).table.data.filter (fun r => rowKeyEq c r₀ r) =
           rows.filter (fun r => rowKeyEq c r₀ r)
       | none => (s.ingest_data rows).table.data = rows) ∧
      ((s.ingest_data rows).ingest_data rows).table.data =
        (s.ingest_data rows).table.data := by
  intro s rows r₀
  constructor
  · cases hcol : s.table.columns[s.table.sort_index]? with
    | none =>
      simp [ConnectionsWidgetState.ingest_data, SortDataTable.set_data, hcol]
    | some c =>
      have hdata : (s.ingest_data rows).table.data =
          SortColumn.sort_by c rows s.table.order := by
        simp [ConnectionsWidgetState.ingest_data, SortDataTable.set_data, hcol]
      rw [hdata]
      cases s.table.order <;> exact connections_filter_stable c _ rows r₀
  · simp [ConnectionsWidgetState.ingest_data, SortDataTable.set_data]

/-! ## The terminal-widget stdin invariant -/

theorem terminal_inv_step (t : TerminalWidgetState) (op : TerminalOp)
    (h1 : 1 ≤ t.stdin.length) (h2 : t.stdin.length ≤ 500)
    (h3 : t.selected_input < t.stdin.length) :
    1 ≤ (op.apply t).stdin.length ∧ (op.apply t).stdin.length ≤ 500 ∧
      (op.apply t).selected_input < (op.apply t).stdin.length := by
  cases op with
  | worker_append output => exact ⟨h1, h2, h3⟩
  | worker_finish => exact ⟨h1, h2, h3⟩
  | worker_limit =>
    simp only [TerminalOp.apply, UnsafeTerminalWidgetState.limit_output]
    split <;> exact ⟨h1, h2, h3⟩
  | worker_stdin =>
    simp only [TerminalOp.apply, UnsafeTerminalWidgetState.stdin]
    split_ifs <;> refine ⟨?_, ?_, ?_⟩ <;>
      simp [List.length_take, List.length_tail] <;> omega
  | key e expanded =>
    obtain ⟨code, ctrl⟩ := e
    cases ctrl <;> cases code <;>
      simp only [TerminalOp.apply, handle_terminal_key] <;>
      (repeat' split) <;>
      first
        | exact ⟨h1, h2, h3⟩
        | (refine ⟨?_, ?_, ?_⟩ <;> (try simp only [List.length_set]) <;> omega)

/-- C10: in every state reachable through the public terminal-widget
operations from the default state (key handling, `stdin()`,
`append_output`, `limit_output`, `finish`), the `stdin` queue holds
between 1 and 500 entries and `selected_input` is a valid index into it;
consequently `current_input` is always `some` (its unwrap cannot panic)
and `stdin.len() - 1` in the key handler's `Up` guard cannot underflow
(the length is at least 1). -/
theorem terminal_widget_stdin_invariant :
    ∀ ops : List TerminalOp,
      1 ≤ (runTerminalOps ops).stdin.length ∧
      (runTerminalOps ops).stdin.length ≤ 500 ∧
      (runTerminalOps ops).selected_input < (runTerminalOps ops).stdin.length ∧
      (runTerminalOps ops).current_input.isSome = true := by
  have main : ∀ (ops : List TerminalOp) (t : TerminalWidgetState),
      1 ≤ t.stdin.length → t.stdin.length ≤ 500 →
      t.selected_input < t.stdin.length →
      1 ≤ (ops.foldl TerminalOp.apply t).stdin.length ∧
        (ops.foldl TerminalOp.apply t).stdin.length ≤ 500 ∧
        (ops.foldl TerminalOp.apply t).selected_input <
          (ops.foldl TerminalOp.apply t).stdin.length := by
    intro ops
    induction ops with
    | nil => intro t h1 h2 h3; exact ⟨h1, h2, h3⟩
    | cons op ops ih =>
      intro t h1 h2 h3
      obtain ⟨g1, g2, g3⟩ := terminal_inv_step t op h1 h2 h3
      exact ih (op.apply t) g1 g2 g3
  intro ops
  obtain ⟨g1, g2, g3⟩ := main ops TerminalWidgetState.default
    (by decide) (by decide) (by decide)
  refine ⟨g1, g2, g3, ?_⟩
  unfold runTerminalOps TerminalWidgetState.current_input
  rw [List.getElem?_eq_getElem g3]
  rfl

/-! ## The collection thread: iteration order, exits, wait interval,
reconfiguration -/

/-- C3: every collection-thread iteration performs, in this order, a
termination check, a non-blocking poll of the control channel, the
harvest, a second termination check, the send of the update, and the
timed wait; the loop ends only at a termination check that observed the
flag set, at a failed send, or at a wait whose wake observed the flag
set — otherwise the iteration continues. -/
theorem collection_iter_order_and_exits
    (captured : AppConfigFields) (ds : DataCollector) (env : CollectionEnv) :
    (env.term_top = some true →
      create_collection_thread_iter captured ds env =
        ([CollectionAction.check_termination], CollectionOutcome.exit_at_top_check)) ∧
    (env.term_top ≠ some true → env.term_mid = some true →
      create_collection_thread_iter captured ds env =
        ([CollectionAction.check_termination, CollectionAction.poll_control,
          CollectionAction.collect, CollectionAction.check_termination],
         CollectionOutcome.exit_at_mid_check)) ∧
    (env.term_top ≠ some true → env.term_mid ≠ some true → env.send_ok = false →
      ∃ p, create_collection_thread_iter captured ds env =
        ([CollectionAction.check_termination, CollectionAction.poll_control,
          CollectionAction.collect, CollectionAction.check_termination,
          CollectionAction.send_update p],
         CollectionOutcome.exit_at_send)) ∧
    (env.term_top ≠ some true → env.term_mid ≠ some true → env.send_ok = true →
      env.wait_flag = some true →
      ∃ p ms, create_collection_thread_iter captured ds env =
        ([CollectionAction.check_termination, CollectionAction.poll_control,
          CollectionAction.collect, CollectionAction.check_termination,
          CollectionAction.send_update p, CollectionAction.wait ms],
         CollectionOutcome.exit_at_wait)) ∧
    (env.term_top ≠ some true → env.term_mid ≠ some true → env.send_ok = true →
      env.wait_flag ≠ some true →
      ∃ p ms ds', create_collection_thread_iter captured ds env =
        ([CollectionAction.check_termination, CollectionAction.poll_control,
          CollectionAction.collect, CollectionAction.check_termination,
          CollectionAction.send_update p, CollectionAction.wait ms],
         CollectionOutcome.next ds')) := by
  obtain ⟨tt, ctl, tm, so, wf⟩ := env
  refine ⟨?_, ?_, ?_, ?_, ?_⟩
  · intro h1
    replace h1 : tt = some true := h1
    simp [create_collection_thread_iter, h1]
  · intro h1 h2
    replace h1 : ¬ tt = some true := h1
    replace h2 : tm = some true := h2
    rcases ctl with _ | msg
    · simp [create_collection_thread_iter, h1, h2]
    · cases msg <;> simp [create_collection_thread_iter, h1, h2]
  · intro h1 h2 h3
    replace h1 : ¬ tt = some true := h1
    replace h2 : ¬ tm = some true := h2
    replace h3 : so = false := h3
    rcases ctl with _ | msg
    · simp [create_collection_thread_iter, h1, h2, h3]
    · cases msg <;>
        simp [create_collection_thread_iter, h1, h2, h3]
  · intro h1 h2 h3 h4
    replace h1 : ¬ tt = some true := h1
    replace h2 : ¬ tm = some true := h2
    replace h3 : so = true := h3
    replace h4 : wf = some true := h4
    rcases ctl with _ | msg
    · simp [create_collection_thread_iter, h1, h2, h3, h4]
    · cases msg <;>
        simp [create_collection_thread_iter, h1, h2, h3, h4]
  · intro h1 h2 h3 h4
    replace h1 : ¬ tt = some true := h1
    replace h2 : ¬ tm = some true := h2
    replace h3 : so = true := h3
    replace h4 : ¬ wf = some true := h4
    rcases ctl with _ | msg
    · simp [create_collection_thread_iter, h1, h2, h3, h4]
    · cases msg <;>
        simp [create_collection_thread_iter, h1, h2, h3, h4]

/-- Witness for C3: the five cases of `collection_iter_order_and_exits`
evaluated at concrete environments. -/
theorem collection_iter_order_and_exits_witness :
    (create_collection_thread_iter sampleConfig sampleCollector
        ⟨some true, none, some false, true, some false⟩ =
      ([CollectionAction.check_termination], CollectionOutcome.exit_at_top_check)) ∧
    (create_collection_thread_iter sampleConfig sampleCollector
        ⟨some false, none, some true, true, some false⟩ =
      ([CollectionAction.check_termination, CollectionAction.poll_control,
        CollectionAction.collect, CollectionAction.check_termination],
       CollectionOutcome.exit_at_mid_check)) ∧
    (∃ p, create_collection_thread_iter sampleConfig sampleCollector
        ⟨some false, none, some false, false, some false⟩ =
      ([CollectionAction.check_termination, CollectionAction.poll_control,
        CollectionAction.collect, CollectionAction.check_termination,
        CollectionAction.send_update p],
       CollectionOutcome.exit_at_send)) ∧
    (∃ p ms, create_collection_thread_iter sampleConfig sampleCollector
        ⟨some false, none, some false, true, some true⟩ =
      ([CollectionAction.check_termination, CollectionAction.poll_control,
        CollectionAction.collect, CollectionAction.check_termination,
        CollectionAction.send_update p, CollectionAction.wait ms],
       CollectionOutcome.exit_at_wait)) ∧
    (∃ p ms ds', create_collection_thread_iter sampleConfig sampleCollector
        ⟨some false, none, some false, true, some false⟩ =
      ([CollectionAction.check_termination, CollectionAction.poll_control,
        CollectionAction.collect, CollectionAction.check_termination,
        CollectionAction.send_update p, CollectionAction.wait ms],
       CollectionOutcome.next ds')) :=
  ⟨(collection_iter_order_and_exits sampleConfig sampleCollector _).1 rfl,
   (collection_iter_order_and_exits sampleConfig sampleCollector _).2.1
     (by decide) rfl,
   (collection_iter_order_and_exits sampleConfig sampleCollector _).2.2.1
     (by decide) (by decide) rfl,
   (collection_iter_order_and_exits sampleConfig sampleCollector _).2.2.2.1
     (by decide) (by decide) rfl rfl,
   (collection_iter_order_and_exits sampleConfig sampleCollector _).2.2.2.2
     (by decide) (by decide) rfl (by decide)⟩

/-- C1 counterexample: after an iteration receives `UpdateUpdateTime(5000)`
(and waits 5000 ms), the next iteration that polls no control message
waits the startup rate of 1000 ms again — `update_time` is re-initialised
from the captured startup rate at the top of every iteration
(`lib.rs:629`), so the received interval does not continue to govern
subsequent idle waits. -/
theorem update_time_not_persistent :
    create_collection_thread_iter sampleConfig sampleCollector
        ⟨some false, some (ThreadControlEvent.UpdateUpdateTime 5000), some false,
         true, some false⟩ =
      ([CollectionAction.check_termination, CollectionAction.poll_control,
        CollectionAction.collect, CollectionAction.check_termination,
        CollectionAction.send_update 1, CollectionAction.wait 5000],
       CollectionOutcome.next sampleCollector) ∧
    create_collection_thread_iter sampleConfig sampleCollector
        ⟨some false, none, some false, true, some false⟩ =
      ([CollectionAction.check_termination, CollectionAction.poll_control,
        CollectionAction.collect, CollectionAction.check_termination,
        CollectionAction.send_update 1, CollectionAction.wait 1000],
       CollectionOutcome.next sampleCollector) ∧
    CollectionAction.wait 5000 ∉
      (create_collection_thread_iter sampleConfig sampleCollector
        ⟨some false, none, some false, true, some false⟩).1 := by
  refine ⟨?_, ?_, ?_⟩ <;> decide

/-- C1 (amended): the idle wait of the iteration whose control poll
returns `UpdateUpdateTime(ms)` uses `ms` milliseconds; an iteration whose
poll returns nothing uses the startup `update_rate_in_milliseconds`
regardless of any earlier message — the received interval governs only
the wait of the iteration that received it. -/
theorem update_update_time_governs_current_wait_only
    (captured : AppConfigFields) (ds : DataCollector) (env : CollectionEnv)
    (ms : Nat)
    (htop : env.term_top ≠ some true) (hmid : env.term_mid ≠ some true)
    (hsend : env.send_ok = true) :
    (env.control = some (ThreadControlEvent.UpdateUpdateTime ms) →
      ∃ p, (create_collection_thread_iter captured ds env).1 =
        [CollectionAction.check_termination, CollectionAction.poll_control,
         CollectionAction.collect, CollectionAction.check_termination,
         CollectionAction.send_update p, CollectionAction.wait ms]) ∧
    (env.control = none →
      ∃ p, (create_collection_thread_iter captured ds env).1 =
        [CollectionAction.check_termination, CollectionAction.poll_control,
         CollectionAction.collect, CollectionAction.check_termination,
         CollectionAction.send_update p,
         CollectionAction.wait captured.update_rate_in_milliseconds]) := by
  obtain ⟨tt, ctl, tm, so, wf⟩ := env
  replace htop : ¬ tt = some true := htop
  replace hmid : ¬ tm = some true := hmid
  replace hsend : so = true := hsend
  constructor
  · intro hctl
    replace hctl : ctl = some (ThreadControlEvent.UpdateUpdateTime ms) := hctl
    subst hctl
    by_cases hwf : wf = some true <;>
      simp [create_collection_thread_iter, htop, hmid, hsend, hwf]
  · intro hctl
    replace hctl : ctl = none := hctl
    subst hctl
    by_cases hwf : wf = some true <;>
      simp [create_collection_thread_iter, htop, hmid, hsend, hwf]

/-- Witness for the amended C1: at the startup rate 1000, an iteration
receiving `UpdateUpdateTime(5000)` waits 5000 and one receiving nothing
waits 1000. -/
theorem update_update_time_governs_current_wait_only_witness :
    (∃ p, (create_collection_thread_iter sampleConfig sampleCollector
        ⟨some false, some (ThreadControlEvent.UpdateUpdateTime 5000), some false,
         true, some false⟩).1 =
      [CollectionAction.check_termination, CollectionAction.poll_control,
       CollectionAction.collect, CollectionAction.check_termination,
       CollectionAction.send_update p, CollectionAction.wait 5000]) ∧
    (∃ p, (create_collection_thread_iter sampleConfig sampleCollector
        ⟨some false, none, some false, true, some false⟩).1 =
      [CollectionAction.check_termination, CollectionAction.poll_control,
       CollectionAction.collect, CollectionAction.check_termination,
       CollectionAction.send_update p,
       CollectionAction.wait sampleConfig.update_rate_in_milliseconds]) :=
  ⟨(update_update_time_governs_current_wait_only sampleConfig sampleCollector
      _ 5000 (by decide) (by decide) rfl).1 rfl,
   (update_update_time_governs_current_wait_only sampleConfig sampleCollector
      _ 5000 (by decide) (by decide) rfl).2 rfl⟩

/-- C7: on `UpdateConfig`, the arm applies the message's temperature unit,
`use_current_cpu_total` and `show_average_cpu`, but passes the
startup-captured `unnormalized_cpu` to its setter (`lib.rs:640`) instead
of the message's value: here the message carries `unnormalized_cpu = true`
while startup had `false`, and after the iteration the harvester still
has `unnormalized_cpu = false` — the received configuration is not fully
applied. -/
theorem update_config_drops_unnormalized_cpu :
    newConfig.unnormalized_cpu = true ∧
    sampleConfig.unnormalized_cpu = false ∧
    create_collection_thread_iter sampleConfig sampleCollector
        ⟨some false, some (ThreadControlEvent.UpdateConfig newConfig), some false,
         true, some false⟩ =
      ([CollectionAction.check_termination, CollectionAction.poll_control,
        CollectionAction.collect, CollectionAction.check_termination,
        CollectionAction.send_update 1, CollectionAction.wait 1000],
       CollectionOutcome.next
        { temperature_type := TemperatureType.Fahrenheit
          use_current_cpu_total := true
          unnormalized_cpu := false
          show_average_cpu := true
          used_widgets := allWidgets
          data := 0 }) := by
  refine ⟨rfl, rfl, ?_⟩
  decide

/-! ## The cleaning thread -/

/-- C4: the cleaning thread waits on the termination signal for
`retention_ms` plus the fixed 60000 ms margin; every wake that does not
observe the flag set sends exactly one `Clean` event; it exits exactly
when the flag is observed set (sending nothing) or when the send fails;
and `Clean` is the only event it ever sends — it performs no eviction
itself. -/
theorem cleaning_thread_behaviour (retention_ms : Nat) (env : CleaningEnv) :
    (cleaning_thread_iter retention_ms env).1 = retention_ms + 60000 ∧
    (env.wait_flag = some true →
      cleaning_thread_iter retention_ms env =
        (retention_ms + 60000, [], CleaningOutcome.exit_at_flag)) ∧
    (env.wait_flag ≠ some true →
      (cleaning_thread_iter retention_ms env).2.1 = [BottomEvent.Clean] ∧
      ((cleaning_thread_iter retention_ms env).2.2 = CleaningOutcome.exit_at_send ↔
        env.send_ok = false)) ∧
    (∀ e, e ∈ (cleaning_thread_iter retention_ms env).2.1 → e = BottomEvent.Clean) := by
  obtain ⟨wf, so⟩ := env
  refine ⟨?_, ?_, ?_, ?_⟩
  · by_cases hwf : wf = some true <;>
      simp [cleaning_thread_iter, offset_wait_time, hwf]
  · intro h
    replace h : wf = some true := h
    simp [cleaning_thread_iter, offset_wait_time, h]
  · intro h
    replace h : ¬ wf = some true := h
    cases so <;> simp [cleaning_thread_iter, h]
  · intro e he
    by_cases hwf : wf = some true <;>
      (simp [cleaning_thread_iter, hwf] at he; try simp [he])

/-- Witness for C4: with `retention_ms = 600000`, a wake that does not
observe the flag (and a live consumer) waits 660000 ms, sends exactly one
`Clean`, and does not exit. -/
theorem cleaning_thread_behaviour_witness :
    (cleaning_thread_iter 600000 ⟨some false, true⟩).1 = 660000 ∧
    (cleaning_thread_iter 600000 ⟨some false, true⟩).2.1 = [BottomEvent.Clean] ∧
    ¬ (cleaning_thread_iter 600000 ⟨some false, true⟩).2.2 =
        CleaningOutcome.exit_at_send :=
  ⟨(cleaning_thread_behaviour 600000 ⟨some false, true⟩).1,
   ((cleaning_thread_behaviour 600000 ⟨some false, true⟩).2.2.1 (by decide)).1,
   fun h =>
     by simpa using
       (((cleaning_thread_behaviour 600000 ⟨some false, true⟩).2.2.1
         (by decide)).2.mp h)⟩

/-! ## The input thread -/

/-- C6 counterexample: a `Moved` mouse event is a non-scroll mouse event,
yet the input thread forwards nothing for it — the `Moved | Drag(..)` arm
(`lib.rs:571`) silently discards it, refuting "forwards every non-scroll
mouse event unconditionally". -/
theorem moved_mouse_event_not_forwarded :
    create_input_thread_iter 0
        { term := some false,
          event := some (CrosstermEvent.Mouse ⟨MouseEventKind.Moved, 3, 4⟩),
          now := 1000, send_ok := true } =
      (none, InputOutcome.next 0) := by
  decide

/-- C6 (amended): the input thread forwards resize, key and paste events
unconditionally; it forwards a non-scroll mouse event unconditionally
*except* `Moved` and `Drag`, which it silently discards; and it forwards a
scroll event exactly when at least 20 ms have elapsed since the last
forwarded scroll event, resetting the debounce timer to the current
instant exactly on a forwarded scroll. -/
theorem input_thread_forwarding (mouse_timer : Nat) (env : InputEnv)
    (hterm : env.term ≠ some true) :
    (∀ w h, env.event = some (CrosstermEvent.Resize w h) →
      (create_input_thread_iter mouse_timer env).1 = some BottomEvent.Resize) ∧
    (∀ k, env.event = some (CrosstermEvent.Key k) →
      (create_input_thread_iter mouse_timer env).1 = some (BottomEvent.KeyInput k)) ∧
    (∀ s, env.event = some (CrosstermEvent.Paste s) →
      (create_input_thread_iter mouse_timer env).1 = some (BottomEvent.PasteEvent s)) ∧
    (∀ m, env.event = some (CrosstermEvent.Mouse m) →
      (m.kind = MouseEventKind.Down ∨ m.kind = MouseEventKind.Up) →
      (create_input_thread_iter mouse_timer env).1 = some (BottomEvent.MouseInput m)) ∧
    (∀ m, env.event = some (CrosstermEvent.Mouse m) →
      (m.kind = MouseEventKind.Moved ∨ m.kind = MouseEventKind.Drag) →
      create_input_thread_iter mouse_timer env = (none, InputOutcome.next mouse_timer)) ∧
    (∀ m, env.event = some (CrosstermEvent.Mouse m) →
      (m.kind = MouseEventKind.ScrollUp ∨ m.kind = MouseEventKind.ScrollDown) →
      (env.now - mouse_timer ≥ 20 →
        (create_input_thread_iter mouse_timer env).1 = some (BottomEvent.MouseInput m) ∧
        (env.send_ok = true →
          (create_input_thread_iter mouse_timer env).2 = InputOutcome.next env.now)) ∧
      (env.now - mouse_timer < 20 →
        create_input_thread_iter mouse_timer env = (none, InputOutcome.next mouse_timer))) := by
  obtain ⟨tm, ev, now, so⟩ := env
  replace hterm : ¬ tm = some true := hterm
  refine ⟨?_, ?_, ?_, ?_, ?_, ?_⟩
  · intro w h hev
    replace hev : ev = some (CrosstermEvent.Resize w h) := hev
    subst hev
    cases so <;> simp [create_input_thread_iter, hterm]
  · intro k hev
    replace hev : ev = some (CrosstermEvent.Key k) := hev
    subst hev
    cases so <;> simp [create_input_thread_iter, hterm]
  · intro s hev
    replace hev : ev = some (CrosstermEvent.Paste s) := hev
    subst hev
    cases so <;> simp [create_input_thread_iter, hterm]
  · intro m hev hkind
    replace hev : ev = some (CrosstermEvent.Mouse m) := hev
    subst hev
    obtain ⟨k, c, r⟩ := m
    rcases hkind with hk | hk
    · replace hk : k = MouseEventKind.Down := hk
      subst hk
      cases so <;> simp [create_input_thread_iter, hterm]
    · replace hk : k = MouseEventKind.Up := hk
      subst hk
      cases so <;> simp [create_input_thread_iter, hterm]
  · intro m hev hkind
    replace hev : ev = some (CrosstermEvent.Mouse m) := hev
    subst hev
    obtain ⟨k, c, r⟩ := m
    rcases hkind with hk | hk
    · replace hk : k = MouseEventKind.Moved := hk
      subst hk
      simp [create_input_thread_iter, hterm]
    · replace hk : k = MouseEventKind.Drag := hk
      subst hk
      simp [create_input_thread_iter, hterm]
  · intro m hev hkind
    replace hev : ev = some (CrosstermEvent.Mouse m) := hev
    subst hev
    obtain ⟨k, c, r⟩ := m
    rcases hkind with hk | hk
    · replace hk : k = MouseEventKind.ScrollUp := hk
      subst hk
      constructor
      · intro hnow
        replace hnow : 20 ≤ now - mouse_timer := hnow
        constructor
        · cases so <;> simp [create_input_thread_iter, hterm, hnow]
        · intro hso
          replace hso : so = true := hso
          subst hso
          simp [create_input_thread_iter, hterm, hnow]
      · intro hnow
        replace hnow : now - mouse_timer < 20 := hnow
        have h20 : ¬ 20 ≤ now - mouse_timer := by omega
        simp [create_input_thread_iter, hterm, h20]
    · replace hk : k = MouseEventKind.ScrollDown := hk
      subst hk
      constructor
      · intro hnow
        replace hnow : 20 ≤ now - mouse_timer := hnow
        constructor
        · cases so <;> simp [create_input_thread_iter, hterm, hnow]
        · intro hso
          replace hso : so = true := hso
          subst hso
          simp [create_input_thread_iter, hterm, hnow]
      · intro hnow
        replace hnow : now - mouse_timer < 20 := hnow
        have h20 : ¬ 20 ≤ now - mouse_timer := by omega
        simp [create_input_thread_iter, hterm, h20]

/-- Witness for the amended C6: concrete evaluations — a key event is
forwarded, a `Drag` is dropped, a scroll 25 ms after the last forwarded
scroll is forwarded and resets the timer, a scroll 5 ms after is
dropped. -/
theorem input_thread_forwarding_witness :
    (create_input_thread_iter 0
        { term := some false, event := some (CrosstermEvent.Key ⟨KeyCode.Enter, false⟩),
          now := 0, send_ok := true }).1 =
      some (BottomEvent.KeyInput ⟨KeyCode.Enter, false⟩) ∧
    create_input_thread_iter 100
        { term := some false,
          event := some (CrosstermEvent.Mouse ⟨MouseEventKind.Drag, 1, 2⟩),
          now := 100, send_ok := true } =
      (none, InputOutcome.next 100) ∧
    (create_input_thread_iter 100
        { term := some false,
          event := some (CrosstermEvent.Mouse ⟨MouseEventKind.ScrollUp, 1, 2⟩),
          now := 125, send_ok := true }).1 =
      some (BottomEvent.MouseInput ⟨MouseEventKind.ScrollUp, 1, 2⟩) ∧
    create_input_thread_iter 100
        { term := some false,
          event := some (CrosstermEvent.Mouse ⟨MouseEventKind.ScrollUp, 1, 2⟩),
          now := 105, send_ok := true } =
      (none, InputOutcome.next 100) :=
  ⟨(input_thread_forwarding 0 _ (by decide)).2.1 _ rfl,
   (input_thread_forwarding 100 _ (by decide)).2.2.2.2.1 _ rfl (Or.inr rfl),
   ((input_thread_forwarding 100 _ (by decide)).2.2.2.2.2 _ rfl (Or.inl rfl)).1
     (by decide) |>.1,
   ((input_thread_forwarding 100 _ (by decide)).2.2.2.2.2 _ rfl (Or.inl rfl)).2
     (by decide)⟩

/-! ## Send-failure behaviour across the producers -/

theorem worker_append_loop_length (chunks : List (List Nat))
    (t : TerminalWidgetState) (send_ok : Nat → Bool) (k : Nat) :
    (worker_append_loop t chunks send_ok k).2.1.length = chunks.length := by
  induction chunks generalizing t k with
  | nil => simp [worker_append_loop]
  | cons c cs ih =>
    simp only [worker_append_loop]
    rcases hw : worker_append_loop (UnsafeTerminalWidgetState.append_output t c)
      cs send_ok (k + 1) with ⟨t', rs, k'⟩
    have h := ih (UnsafeTerminalWidgetState.append_output t c) (k + 1)
    rw [hw] at h
    simpa [hw] using h

theorem worker_run_sends_length (t : TerminalWidgetState)
    (chunks : List (List Nat)) (end_bytes : List Nat) (send_ok : Nat → Bool) :
    (worker_run t chunks end_bytes send_ok).2.length = chunks.length + 2 := by
  unfold worker_run
  rcases hw : worker_append_loop ((UnsafeTerminalWidgetState.stdin t).1)
    chunks send_ok 0 with ⟨t', rs, k'⟩
  have h := worker_append_loop_length chunks ((UnsafeTerminalWidgetState.stdin t).1)
    send_ok 0
  rw [hw] at h
  simp only at h
  simp [hw, h]

/-- C2 counterexample: the terminal background worker does not treat a
failed send as "stop running": with every send failing, its run over one
output chunk still performs three send attempts (`append_output` per
chunk, `append_output` of the final output, `finish`), each discarded by
`unwrap_unchecked` (`terminal_widget.rs:94,116`) — it keeps sending after
the first failure instead of exiting. -/
theorem worker_sends_after_failed_send :
    (worker_run TerminalWidgetState.default [[65]] [10] (fun _ => false)).2 =
      [false, false, false] := by
  decide

/-- C2 (amended): the three dedicated producer threads — input,
collection, and cleaning — treat a failed send as "stop running" (each
exits its loop at the failed send, performing nothing further); the
terminal background worker, by contrast, ignores every send result: its
send trace always has one attempt per output chunk plus two, regardless
of how many sends fail. -/
theorem send_failure_stops_dedicated_threads :
    (∀ (mouse_timer : Nat) (env : InputEnv) (ev : BottomEvent),
      env.send_ok = false →
      (create_input_thread_iter mouse_timer env).1 = some ev →
      (create_input_thread_iter mouse_timer env).2 = InputOutcome.exit_send_failed) ∧
    (∀ (captured : AppConfigFields) (ds : DataCollector) (env : CollectionEnv),
      env.term_top ≠ some true → env.term_mid ≠ some true → env.send_ok = false →
      (create_collection_thread_iter captured ds env).2 = CollectionOutcome.exit_at_send ∧
      ∃ p, (create_collection_thread_iter captured ds env).1 =
        [CollectionAction.check_termination, CollectionAction.poll_control,
         CollectionAction.collect, CollectionAction.check_termination,
         CollectionAction.send_update p]) ∧
    (∀ (retention_ms : Nat) (env : CleaningEnv),
      env.wait_flag ≠ some true → env.send_ok = false →
      (cleaning_thread_iter retention_ms env).2.2 = CleaningOutcome.exit_at_send) ∧
    (∀ (t : TerminalWidgetState) (chunks : List (List Nat))
        (end_bytes : List Nat) (send_ok : Nat → Bool),
      (worker_run t chunks end_bytes send_ok).2.length = chunks.length + 2) := by
  refine ⟨?_, ?_, ?_, ?_⟩
  · intro mouse_timer env ev hso hev
    obtain ⟨tm, evt, now, so⟩ := env
    replace hso : so = false := hso
    subst hso
    by_cases hterm : tm = some true
    · simp [create_input_thread_iter, hterm] at hev
    · rcases evt with _ | e
      · simp [create_input_thread_iter, hterm] at hev
      · cases e with
        | Resize w h => simp [create_input_thread_iter, hterm]
        | Key k => simp [create_input_thread_iter, hterm]
        | Paste s => simp [create_input_thread_iter, hterm]
        | FocusChange => simp [create_input_thread_iter, hterm] at hev
        | Mouse m =>
          obtain ⟨k, c, r⟩ := m
          cases k with
          | Moved => simp [create_input_thread_iter, hterm] at hev
          | Drag => simp [create_input_thread_iter, hterm] at hev
          | ScrollUp =>
            by_cases h20 : 20 ≤ now - mouse_timer
            · simp [create_input_thread_iter, hterm, h20]
            · simp [create_input_thread_iter, hterm, h20] at hev
          | ScrollDown =>
            by_cases h20 : 20 ≤ now - mouse_timer
            · simp [create_input_thread_iter, hterm, h20]
            · simp [create_input_thread_iter, hterm, h20] at hev
          | Down => simp [create_input_thread_iter, hterm]
          | Up => simp [create_input_thread_iter, hterm]
  · intro captured ds env h1 h2 h3
    obtain ⟨tt, ctl, tm, so, wf⟩ := env
    replace h1 : ¬ tt = some true := h1
    replace h2 : ¬ tm = some true := h2
    replace h3 : so = false := h3
    rcases ctl with _ | msg
    · constructor
      · simp [create_collection_thread_iter, h1, h2, h3]
      · simp [create_collection_thread_iter, h1, h2, h3]
    · cases msg <;> constructor <;>
        simp [create_collection_thread_iter, h1, h2, h3]
  · intro retention_ms env hwf hso
    obtain ⟨wf, so⟩ := env
    replace hwf : ¬ wf = some true := hwf
    replace hso : so = false := hso
    simp [cleaning_thread_iter, hwf, hso]
  · intro t chunks end_bytes send_ok
    exact worker_run_sends_length t chunks end_bytes send_ok

/-- Witness for the amended C2: concrete evaluations — a key event whose
send fails makes the input thread exit; a collection iteration whose send
fails ends at the send; a cleaning wake whose send fails exits; the
worker's trace over one chunk has three attempts even with all sends
failing. -/
theorem send_failure_stops_dedicated_threads_witness :
    (create_input_thread_iter 0
        { term := some false, event := some (CrosstermEvent.Key ⟨KeyCode.Enter, false⟩),
          now := 0, send_ok := false }).2 = InputOutcome.exit_send_failed ∧
    (create_collection_thread_iter sampleConfig sampleCollector
        ⟨some false, none, some false, false, some false⟩).2 =
      CollectionOutcome.exit_at_send ∧
    (cleaning_thread_iter 600000 ⟨some false, false⟩).2.2 =
      CleaningOutcome.exit_at_send ∧
    (worker_run TerminalWidgetState.default [[65]] [10] (fun _ => false)).2.length =
      1 + 2 :=
  ⟨send_failure_stops_dedicated_threads.1 0 _ (BottomEvent.KeyInput ⟨KeyCode.Enter, false⟩)
     rfl (by decide),
   (send_failure_stops_dedicated_threads.2.1 sampleConfig sampleCollector
     ⟨some false, none, some false, false, some false⟩ (by decide) (by decide) rfl).1,
   send_failure_stops_dedicated_threads.2.2.1 600000 ⟨some false, false⟩ (by decide) rfl,
   send_failure_stops_dedicated_threads.2.2.2 TerminalWidgetState.default [[65]] [10]
     (fun _ => false)⟩

/-! ## Dirty tracking on `Update` ingest -/

/-- C5: the dirty-marking of the `Update` arm is not uniform across
categories — at this input no category is in `used_widgets`, the app is
not frozen and no dirty flag is set anywhere, yet after the `Update`
ingest the cpu widget has recomputed (its `update_table` runs
unconditionally in `update_data`, `lib.rs:474-479`) and the connections
widget has recomputed (its `ingest_data` runs unconditionally,
`lib.rs:498-502`), both without ever being marked dirty; this refutes
"WidgetStates of categories not in `used_widgets` are never marked dirty
and never recompute their view on that ingest". -/
theorem unused_categories_still_recompute :
    sampleApp.used_widgets.use_cpu = false ∧
    sampleApp.cpu_widgets = [{ force_update_data := false, recomputes := 0 }] ∧
    sampleApp.connections_widgets = [{ force_update_data := false, recomputes := 0 }] ∧
    (handle_update_event sampleApp).cpu_widgets =
      [{ force_update_data := false, recomputes := 1 }] ∧
    (handle_update_event sampleApp).connections_widgets =
      [{ force_update_data := false, recomputes := 1 }] := by
  refine ⟨rfl, rfl, rfl, ?_, ?_⟩ <;> decide

end BottomServer
